import Mathlib

/-!
# Verification of the hdbconnect wire-protocol engine

Shallow embedding of the protocol engine of the `rust-hdbconnect` driver:
the little-endian wire primitives, the 8-byte padding rule, the typed value
model (`HdbValue`) with its on-wire encoding, the length-prefixed byte-slice
framing, the SECONDTIME decoding, the message/segment codec, the
statement-context echo, and the prepared-statement batch execution.

Byte streams are modelled as `List Nat` (each element a byte value < 256;
where a claim quantifies over raw input, the bound appears as a hypothesis).
Machine integers are modelled as `Nat`/`Int` with explicit `% 2 ^ w` at the
points where Rust performs `as` casts or wrapping arithmetic.  Fallible code
returns `Except Failure`.  A Rust `panic!`/`assert!` is modelled as the
distinguished `Failure.panic` outcome, which is different from every returned
error value.
-/

namespace Hdb

/-- Failure outcomes of the driver, one constructor per Rust error shape that
the embedded functions can produce.  `HdbError::Impl` becomes `implErr`,
`HdbError::Usage` becomes `usage`, `PrtError::ProtocolError` becomes
`protocolError`, an unexpected end of the byte stream (an `io::Error` from a
`read_*` call) becomes `ioError`, and a Rust `panic!` (from `assert!` /
`assert_eq!`) becomes `panic`. -/
inductive Failure where
  | implErr (msg : String)
  | usage (msg : String)
  | protocolError (msg : String)
  | ioError
  | panic
  deriving Repr, DecidableEq

/-- Decidable equality for `Except`, so that concrete runs of the embedded
functions can be checked by `decide`. -/
instance exceptDecEq {e a : Type} [DecidableEq e] [DecidableEq a] :
    DecidableEq (Except e a) := fun x y =>
  match x, y with
  | .error a1, .error a2 =>
    if h : a1 = a2 then .isTrue (h ▸ rfl)
    else .isFalse fun hc => h (Except.error.inj hc)
  | .ok a1, .ok a2 =>
    if h : a1 = a2 then .isTrue (h ▸ rfl)
    else .isFalse fun hc => h (Except.ok.inj hc)
  | .error _, .ok _ => .isFalse fun hc => Except.noConfusion hc
  | .ok _, .error _ => .isFalse fun hc => Except.noConfusion hc

/-! ## Wire primitives: little-endian integers -/

/-- Little-endian byte encoding of `n` on `w` bytes (higher bits of `n` are
discarded, as Rust's `write_uN`/`as` truncation does). -/
def natToLe : Nat → Nat → List Nat
  | 0, _ => []
  | w + 1, n => n % 256 :: natToLe w (n / 256)

/-- Little-endian decoding of a byte list to an unsigned value. -/
def leToNat : List Nat → Nat
  | [] => 0
  | b :: rest => b + 256 * leToNat rest

/-- Reinterpret the unsigned value `n` (already reduced below `2 ^ bits`) as a
signed two's-complement integer of width `bits`. -/
def asSigned (bits : Nat) (n : Nat) : Int :=
  if n < 2 ^ (bits - 1) then (n : Int) else (n : Int) - 2 ^ bits

/-- Little-endian byte encoding of the signed integer `i` on `w` bytes
(two's complement; mirrors `write_iN::<LittleEndian>`). -/
def intToLe (w : Nat) (i : Int) : List Nat :=
  natToLe w (i % (2 ^ (8 * w))).toNat

/-- Rust's `as usize` cast of a (64-bit-machine) signed value: two's-complement
reinterpretation at 64 bits. -/
def i64AsUsize (i : Int) : Nat :=
  (i % 2 ^ 64).toNat

/-! ## Wire primitives: the reader

A reader is just the list of bytes not yet consumed; each `read*` helper
returns the value read and the remaining bytes, or fails with `ioError` when
the stream is exhausted (mirroring the `io::Error` a Rust `read_exact` /
`read_u8` raises). -/

/-- `read_u8`. -/
def readU8 : List Nat → Except Failure (Nat × List Nat)
  | [] => .error .ioError
  | b :: rest => .ok (b, rest)

/-- Read exactly `n` raw bytes (`util::parse_bytes` / `read_exact`). -/
def readBytes (n : Nat) (l : List Nat) : Except Failure (List Nat × List Nat) :=
  if n ≤ l.length then .ok (l.take n, l.drop n) else .error .ioError

/-- Read a `w`-byte little-endian unsigned integer. -/
def readLe (w : Nat) (l : List Nat) : Except Failure (Nat × List Nat) :=
  match readBytes w l with
  | .error e => .error e
  | .ok (bs, rest) => .ok (leToNat bs, rest)

/-- Read a `w`-byte little-endian signed integer (`read_iN::<LittleEndian>`). -/
def readLeSigned (w : Nat) (l : List Nat) : Except Failure (Int × List Nat) :=
  match readLe w l with
  | .error e => .error e
  | .ok (n, rest) => .ok (asSigned (8 * w) (n % 2 ^ (8 * w)), rest)

/-! ## Padding (`src/protocol/argument.rs`, fn `padsize`) -/

/-- `fn padsize(size: usize) -> usize`: number of filler bytes that round a
payload size up to an 8-byte boundary. -/
def padsize (size : Nat) : Nat :=
  match size with
  | 0 => 0
  | _ => 7 - (size - 1) % 8

/-! ## Length-prefixed byte slices (`src/protocol/parts/hdb_value.rs`) -/

def MAX_1_BYTE_LENGTH : Nat := 245
def MAX_2_BYTE_LENGTH : Nat := 32767
def LENGTH_INDICATOR_2BYTE : Nat := 246
def LENGTH_INDICATOR_4BYTE : Nat := 247
def LENGTH_INDICATOR_NULL : Nat := 255

/-- `fn serialize_length_and_bytes(v: &[u8], w)`: one indicator byte, an
optional escape length, then the raw bytes.  The escaped lengths are written
with `l as i16` / `l as i32`, i.e. the low 16 / 32 bits of the length in
little-endian order. -/
def serialize_length_and_bytes (v : List Nat) : List Nat :=
  if v.length ≤ MAX_1_BYTE_LENGTH then
    v.length :: v
  else if v.length ≤ MAX_2_BYTE_LENGTH then
    LENGTH_INDICATOR_2BYTE :: natToLe 2 v.length ++ v
  else
    LENGTH_INDICATOR_4BYTE :: natToLe 4 v.length ++ v

/-- Shared length-indicator decoding: given the indicator byte `l8` and the
remaining stream, produce the payload length as the Rust `match` arms do
(`l ≤ 245`, `246` with an escaped i16, `247` with an escaped i32).  The
`nullable` flag selects between `parse_nullable_binary` (where 255 is legal
and reported as `none`) and `parse_binary` (where 255 is an error). -/
def decode_length_indicator (nullable : Bool) (l8 : Nat) (rest : List Nat) :
    Except Failure (Option Nat × List Nat) :=
  if l8 ≤ MAX_1_BYTE_LENGTH then .ok (some l8, rest)
  else if l8 = LENGTH_INDICATOR_2BYTE then
    match readLeSigned 2 rest with
    | .error e => .error e
    | .ok (i, rest) => .ok (some (i64AsUsize i), rest)
  else if l8 = LENGTH_INDICATOR_4BYTE then
    match readLeSigned 4 rest with
    | .error e => .error e
    | .ok (i, rest) => .ok (some (i64AsUsize i), rest)
  else if nullable = true ∧ l8 = LENGTH_INDICATOR_NULL then .ok (none, rest)
  else .error (.implErr "Invalid value in length indicator")

/-- `factory::parse_binary`: read the length framing (the NULL indicator 255
falls into the error arm here) and then the payload bytes.  Returns the bytes
and the unconsumed rest of the stream. -/
def parse_binary (l : List Nat) : Except Failure (List Nat × List Nat) :=
  match readU8 l with
  | .error e => .error e
  | .ok (l8, rest) =>
    match decode_length_indicator false l8 rest with
    | .error e => .error e
    | .ok (none, _) => .error (.implErr "unreachable: 255 rejected above")
    | .ok (some len, rest) =>
      match readBytes len rest with
      | .error e => .error e
      | .ok (bytes, rest) => .ok (bytes, rest)

/-- `factory::parse_nullable_binary`: like `parse_binary` but indicator 255
yields `None`. -/
def parse_nullable_binary (l : List Nat) :
    Except Failure (Option (List Nat) × List Nat) :=
  match readU8 l with
  | .error e => .error e
  | .ok (l8, rest) =>
    match decode_length_indicator true l8 rest with
    | .error e => .error e
    | .ok (none, rest) => .ok (none, rest)
    | .ok (some len, rest) =>
      match readBytes len rest with
      | .error e => .error e
      | .ok (bytes, rest) => .ok (some bytes, rest)

/-! ## REAL and DOUBLE (`src/protocol/parts/hdb_value.rs`, `factory`)

Floating-point values are modelled by their IEEE-754 bit patterns (a `Nat`
below `2 ^ 32` resp. `2 ^ 64`): the Rust code reads the raw little-endian
word, compares it against the all-ones NULL sentinel, and otherwise
reinterprets the same bytes as a float, which is a bijection on bit
patterns. -/

/-- `factory::parse_real`: 4 bytes; all-ones is an unexpected NULL. -/
def parse_real (l : List Nat) : Except Failure (Nat × List Nat) :=
  match readLe 4 l with
  | .error e => .error e
  | .ok (tmp, rest) =>
    if tmp = 2 ^ 32 - 1 then
      .error (.implErr "Unexpected NULL Value in parse_real()")
    else .ok (tmp, rest)

/-- `factory::parse_nullable_real`: 4 bytes; all-ones is `None`. -/
def parse_nullable_real (l : List Nat) :
    Except Failure (Option Nat × List Nat) :=
  match readLe 4 l with
  | .error e => .error e
  | .ok (tmp, rest) =>
    if tmp = 2 ^ 32 - 1 then .ok (none, rest) else .ok (some tmp, rest)

/-- `factory::parse_double`: 8 bytes; all-ones is an unexpected NULL. -/
def parse_double (l : List Nat) : Except Failure (Nat × List Nat) :=
  match readLe 8 l with
  | .error e => .error e
  | .ok (tmp, rest) =>
    if tmp = 2 ^ 64 - 1 then
      .error (.implErr "Unexpected NULL Value in parse_double()")
    else .ok (tmp, rest)

/-- `factory::parse_nullable_double`: 8 bytes; all-ones is `None`. -/
def parse_nullable_double (l : List Nat) :
    Except Failure (Option Nat × List Nat) :=
  match readLe 8 l with
  | .error e => .error e
  | .ok (tmp, rest) =>
    if tmp = 2 ^ 64 - 1 then .ok (none, rest) else .ok (some tmp, rest)

/-! ## SECONDTIME (`src/types_impl/secondtime.rs`) -/

def NULL_REPRESENTATION : Int := 86402
def MINUTE_FACTOR : Nat := 60
def HOUR_FACTOR : Nat := 3600

/-- `pub struct SecondTime(u32)`. -/
structure SecondTime where
  raw : Nat
  deriving Repr, DecidableEq

/-- `SecondTime::new(raw: i32)`: `assert!(raw < NULL_REPRESENTATION && raw >= 0)`
then store `raw as u32`.  The failed assertion is the `panic` outcome. -/
def SecondTime.new (raw : Int) : Except Failure SecondTime :=
  if raw < NULL_REPRESENTATION ∧ raw ≥ 0 then .ok ⟨raw.toNat⟩
  else .error .panic

/-- `SecondTime::from_hms`. -/
def SecondTime.from_hms (hour minute second : Nat) :
    Except String SecondTime :=
  if hour > 23 ∨ minute > 59 ∨ second > 59 then
    .error "illegal value of hour, minute or second"
  else .ok ⟨hour * HOUR_FACTOR + minute * MINUTE_FACTOR + second + 1⟩

/-- `SecondTime::as_hms`: `second = if raw == 0 { 0 } else { raw - 1 }`,
then split into hours, minutes, seconds. -/
def SecondTime.as_hms (st : SecondTime) : Nat × Nat × Nat :=
  let second0 := if st.raw = 0 then 0 else st.raw - 1
  let hour := second0 / HOUR_FACTOR
  let second1 := second0 - HOUR_FACTOR * hour
  let minute := second1 / MINUTE_FACTOR
  let second2 := second1 - MINUTE_FACTOR * minute
  (hour, minute, second2)

/-- `parse_secondtime`: read an i32; the NULL sentinel is an `Impl` error in
this non-nullable context; any other value goes through `SecondTime::new`
(whose assertion may panic). -/
def parse_secondtime (l : List Nat) : Except Failure (SecondTime × List Nat) :=
  match readLeSigned 4 l with
  | .error e => .error e
  | .ok (st, rest) =>
    if st = NULL_REPRESENTATION then
      .error (.implErr "Null value found for non-null secondtime column")
    else
      match SecondTime.new st with
      | .error e => .error e
      | .ok s => .ok (s, rest)

/-- `parse_nullable_secondtime`: read an i32; the NULL sentinel is `None`;
any other value goes through `SecondTime::new` (whose assertion may panic). -/
def parse_nullable_secondtime (l : List Nat) :
    Except Failure (Option SecondTime × List Nat) :=
  match readLeSigned 4 l with
  | .error e => .error e
  | .ok (st, rest) =>
    if st = NULL_REPRESENTATION then .ok (none, rest)
    else
      match SecondTime.new st with
      | .error e => .error e
      | .ok s => .ok (some s, rest)

/-! ## The typed value model (`src/protocol/parts/hdb_value.rs`)

Payload representations: `u8` is `Nat`; `i16`/`i32`/`i64` are `Int`;
`f32`/`f64` are their bit patterns as `Nat`; Rust `String`s are modelled by
their CESU-8 byte content (`List Nat`) — the CESU-8 conversion collaborator
is the identity on this representation; `BigDecimal` and the LOB handles are
reduced to the fields their wire encoding consumes. -/

/-- Arbitrary-precision decimal, reduced to sign, mantissa magnitude and
decimal exponent (the fields the 16-byte wire encoding consumes). -/
structure BigDecimal where
  sign : Bool
  mantissa : Nat
  exponent : Int
  deriving Repr, DecidableEq

/-- CLOB handle, reduced to its total character-data length `clob.len()`. -/
structure CLob where
  len : Nat
  deriving Repr, DecidableEq

/-- BLOB handle, reduced to its total length `blob.len_alldata()`. -/
structure BLob where
  len_alldata : Nat
  deriving Repr, DecidableEq

/-- `LongDate(i64)`. -/
structure LongDate where
  raw : Int
  deriving Repr, DecidableEq

/-- `SecondDate(i64)`. -/
structure SecondDate where
  raw : Int
  deriving Repr, DecidableEq

/-- `DayDate(i32)`. -/
structure DayDate where
  raw : Int
  deriving Repr, DecidableEq

/-- `enum HdbValue`, the ~60-variant value union, with each `N_*` sibling
carrying an `Option` payload as in the source. -/
inductive HdbValue where
  | NOTHING
  | TINYINT (u : Nat)
  | SMALLINT (i : Int)
  | INT (i : Int)
  | BIGINT (i : Int)
  | DECIMAL (bd : BigDecimal)
  | REAL (f : Nat)
  | DOUBLE (f : Nat)
  | CHAR (s : List Nat)
  | VARCHAR (s : List Nat)
  | NCHAR (s : List Nat)
  | NVARCHAR (s : List Nat)
  | BINARY (v : List Nat)
  | VARBINARY (v : List Nat)
  | CLOB (c : CLob)
  | NCLOB (c : CLob)
  | BLOB (b : BLob)
  | BOOLEAN (b : Bool)
  | STRING (s : List Nat)
  | NSTRING (s : List Nat)
  | BSTRING (v : List Nat)
  | SMALLDECIMAL (bd : BigDecimal)
  | TEXT (s : List Nat)
  | SHORTTEXT (s : List Nat)
  | LONGDATE (d : LongDate)
  | SECONDDATE (d : SecondDate)
  | DAYDATE (d : DayDate)
  | SECONDTIME (t : SecondTime)
  | N_TINYINT (u : Option Nat)
  | N_SMALLINT (i : Option Int)
  | N_INT (i : Option Int)
  | N_BIGINT (i : Option Int)
  | N_DECIMAL (bd : Option BigDecimal)
  | N_REAL (f : Option Nat)
  | N_DOUBLE (f : Option Nat)
  | N_CHAR (s : Option (List Nat))
  | N_VARCHAR (s : Option (List Nat))
  | N_NCHAR (s : Option (List Nat))
  | N_NVARCHAR (s : Option (List Nat))
  | N_BINARY (v : Option (List Nat))
  | N_VARBINARY (v : Option (List Nat))
  | N_CLOB (c : Option CLob)
  | N_NCLOB (c : Option CLob)
  | N_BLOB (b : Option BLob)
  | N_BOOLEAN (b : Option Bool)
  | N_STRING (s : Option (List Nat))
  | N_NSTRING (s : Option (List Nat))
  | N_BSTRING (v : Option (List Nat))
  | N_SMALLDECIMAL (bd : Option BigDecimal)
  | N_TEXT (s : Option (List Nat))
  | N_SHORTTEXT (s : Option (List Nat))
  | N_SECONDDATE (d : Option SecondDate)
  | N_DAYDATE (d : Option DayDate)
  | N_SECONDTIME (t : Option SecondTime)
  | N_LONGDATE (d : Option LongDate)

/-- Modelled from the spec: the numeric type-id constants live in
`protocol/parts/type_id.rs`, which is not under `src/`.  The values follow
the typecode table of `factory::parse_from_reply` in
`src/protocol/parts/hdb_value.rs` and the spec rule that a nullable type-id
is the non-null type-id plus 128.  `type_id::NOTHING` is given the unused
value 0. -/
def typeId : HdbValue → Nat
  | .NOTHING => 0
  | .TINYINT _ => 1
  | .SMALLINT _ => 2
  | .INT _ => 3
  | .BIGINT _ => 4
  | .DECIMAL _ => 5
  | .REAL _ => 6
  | .DOUBLE _ => 7
  | .CHAR _ => 8
  | .VARCHAR _ => 9
  | .NCHAR _ => 10
  | .NVARCHAR _ => 11
  | .BINARY _ => 12
  | .VARBINARY _ => 13
  | .CLOB _ => 25
  | .NCLOB _ => 26
  | .BLOB _ => 27
  | .BOOLEAN _ => 28
  | .STRING _ => 29
  | .NSTRING _ => 30
  | .BSTRING _ => 33
  | .SMALLDECIMAL _ => 47
  | .TEXT _ => 51
  | .SHORTTEXT _ => 52
  | .LONGDATE _ => 61
  | .SECONDDATE _ => 62
  | .DAYDATE _ => 63
  | .SECONDTIME _ => 64
  | .N_TINYINT _ => 129
  | .N_SMALLINT _ => 130
  | .N_INT _ => 131
  | .N_BIGINT _ => 132
  | .N_DECIMAL _ => 133
  | .N_REAL _ => 134
  | .N_DOUBLE _ => 135
  | .N_CHAR _ => 136
  | .N_VARCHAR _ => 137
  | .N_NCHAR _ => 138
  | .N_NVARCHAR _ => 139
  | .N_BINARY _ => 140
  | .N_VARBINARY _ => 141
  | .N_CLOB _ => 153
  | .N_NCLOB _ => 154
  | .N_BLOB _ => 155
  | .N_BOOLEAN _ => 156
  | .N_STRING _ => 157
  | .N_NSTRING _ => 158
  | .N_BSTRING _ => 161
  | .N_SMALLDECIMAL _ => 175
  | .N_TEXT _ => 179
  | .N_SHORTTEXT _ => 180
  | .N_LONGDATE _ => 189
  | .N_SECONDDATE _ => 190
  | .N_DAYDATE _ => 191
  | .N_SECONDTIME _ => 192

/-- `HdbValue::serialize_type_id`: compute the `is_null` flag by the source's
exact match list (note: `N_DECIMAL(None)`, `N_SMALLDECIMAL(None)`,
`N_DOUBLE(None)`, `N_DAYDATE(None)`, `N_SECONDDATE(None)` and
`N_SECONDTIME(None)` are absent from that list in the source), then write
`type_id()` if null and `type_id() % 128` otherwise.  Returns
`(is_null, byte written)`. -/
def serialize_type_id (v : HdbValue) : Bool × Nat :=
  let is_null : Bool :=
    match v with
    | .N_TINYINT none | .N_SMALLINT none | .N_INT none | .N_BIGINT none
    | .N_REAL none | .N_BOOLEAN none | .N_LONGDATE none
    | .N_CLOB none | .N_NCLOB none | .N_BLOB none
    | .N_CHAR none | .N_VARCHAR none | .N_NCHAR none | .N_NVARCHAR none
    | .N_STRING none | .N_NSTRING none | .N_TEXT none | .N_SHORTTEXT none
    | .N_BINARY none | .N_VARBINARY none | .N_BSTRING none => true
    | _ => false
  if is_null then (true, typeId v) else (false, typeId v % 128)

/-- Modelled from the spec: `serialize_decimal` (`types_impl/hdb_decimal.rs`
is not under `src/`): DECIMAL and SMALLDECIMAL share a 16-byte layout of a
113-bit mantissa, a sign bit, and a 14-bit biased exponent (bias 6176),
little-endian. -/
def serialize_decimal (bd : BigDecimal) : List Nat :=
  natToLe 16 ((bd.mantissa % 2 ^ 113) +
    ((bd.exponent + 6176) % 2 ^ 14).toNat * 2 ^ 113 +
    (if bd.sign then 2 ^ 127 else 0))

/-- Modelled from the spec: `serialize_clob_header` (`types_impl/lob.rs` is
not under `src/`): LOB outbound emit is 1 byte options, 8 bytes declared
length, 8 bytes data position; the body travels out-of-band and the data
position advances past the announced payload. -/
def serialize_clob_header (len : Nat) (data_pos : Int) : List Nat × Int :=
  ([0] ++ natToLe 8 len ++ intToLe 8 data_pos, data_pos + len)

/-- Modelled from the spec: `serialize_blob_header`, same 17-byte layout as
the CLOB header. -/
def serialize_blob_header (len : Nat) (data_pos : Int) : List Nat × Int :=
  ([0] ++ natToLe 8 len ++ intToLe 8 data_pos, data_pos + len)

/-- `serialize_length_and_string`: CESU-8 conversion (identity on this
representation) then byte framing. -/
def serialize_length_and_string (s : List Nat) : List Nat :=
  serialize_length_and_bytes s

/-- `pub fn serialize(tv: &HdbValue, data_pos: &mut i32, w)`: write the
type-id byte, then — unless `serialize_type_id` reported null — the
type-specific payload, mirroring the source's match arms in order.  Returns
the emitted bytes and the updated data position. -/
def serialize (tv : HdbValue) (data_pos : Int) :
    Except Failure (List Nat × Int) :=
  match serialize_type_id tv with
  | (true, idByte) => .ok ([idByte], data_pos)
  | (false, idByte) =>
    match tv with
    | .NOTHING => .error (.implErr "Can't send HdbValue::NOTHING to Database")
    | .TINYINT u | .N_TINYINT (some u) => .ok (idByte :: [u % 256], data_pos)
    | .SMALLINT i | .N_SMALLINT (some i) =>
      .ok (idByte :: intToLe 2 i, data_pos)
    | .INT i | .N_INT (some i) => .ok (idByte :: intToLe 4 i, data_pos)
    | .BIGINT i | .N_BIGINT (some i) => .ok (idByte :: intToLe 8 i, data_pos)
    | .DECIMAL bd | .N_DECIMAL (some bd)
    | .SMALLDECIMAL bd | .N_SMALLDECIMAL (some bd) =>
      .ok (idByte :: serialize_decimal bd, data_pos)
    | .REAL f | .N_REAL (some f) => .ok (idByte :: natToLe 4 f, data_pos)
    | .DOUBLE f | .N_DOUBLE (some f) => .ok (idByte :: natToLe 8 f, data_pos)
    | .BOOLEAN true | .N_BOOLEAN (some true) => .ok (idByte :: [1], data_pos)
    | .BOOLEAN false | .N_BOOLEAN (some false) =>
      .ok (idByte :: [0], data_pos)
    | .LONGDATE ld | .N_LONGDATE (some ld) =>
      .ok (idByte :: intToLe 8 ld.raw, data_pos)
    | .SECONDDATE sd | .N_SECONDDATE (some sd) =>
      .ok (idByte :: intToLe 8 sd.raw, data_pos)
    | .DAYDATE dd | .N_DAYDATE (some dd) =>
      .ok (idByte :: intToLe 4 dd.raw, data_pos)
    | .SECONDTIME st | .N_SECONDTIME (some st) =>
      .ok (idByte :: natToLe 4 st.raw, data_pos)
    | .CLOB c | .N_CLOB (some c) | .NCLOB c | .N_NCLOB (some c) =>
      let (hdr, pos) := serialize_clob_header c.len data_pos
      .ok (idByte :: hdr, pos)
    | .BLOB b | .N_BLOB (some b) =>
      let (hdr, pos) := serialize_blob_header b.len_alldata data_pos
      .ok (idByte :: hdr, pos)
    | .STRING s | .NSTRING s | .TEXT s | .SHORTTEXT s
    | .N_STRING (some s) | .N_NSTRING (some s)
    | .N_TEXT (some s) | .N_SHORTTEXT (some s) =>
      .ok (idByte :: serialize_length_and_string s, data_pos)
    | .BINARY v | .VARBINARY v | .BSTRING v
    | .N_BINARY (some v) | .N_VARBINARY (some v) | .N_BSTRING (some v) =>
      .ok (idByte :: serialize_length_and_bytes v, data_pos)
    | .N_TINYINT none | .N_SMALLINT none | .N_INT none | .N_BIGINT none
    | .N_DECIMAL none | .N_SMALLDECIMAL none | .N_REAL none
    | .N_DOUBLE none | .N_BOOLEAN none | .N_LONGDATE none
    | .N_SECONDDATE none | .N_DAYDATE none | .N_SECONDTIME none
    | .N_STRING none | .N_NSTRING none | .N_TEXT none | .N_SHORTTEXT none
    | .N_CLOB none | .N_NCLOB none | .N_BLOB none
    | .N_BINARY none | .N_VARBINARY none | .N_BSTRING none =>
      .ok ([idByte], data_pos)
    | .CHAR _ | .N_CHAR _ | .NCHAR _ | .N_NCHAR _
    | .VARCHAR _ | .N_VARCHAR _ | .NVARCHAR _ | .N_NVARCHAR _ =>
      .error (.implErr "HdbValue::serialize() not implemented for type code")

/-! ## Message codec (`src/protocol/lowlevel/message.rs`) -/

def MESSAGE_HEADER_SIZE : Nat := 32
def SEGMENT_HEADER_SIZE : Nat := 24

/-- A part as the message serializer sees it.  Modelled from the spec:
`Part::size(true)` and `Part::serialize` live in
`protocol/lowlevel/part.rs`, which is not under `src/`; a part is abstracted
to the size it reports and the bytes it emits, and claim C3's "parts all
report consistent sizes" hypothesis links the two. -/
structure WirePart where
  sizeWithPadding : Nat
  bytes : List Nat
  deriving Repr, DecidableEq

/-- `Request::seg_size`: segment header plus the padded sizes of all parts. -/
def seg_size (parts : List WirePart) : Nat :=
  SEGMENT_HEADER_SIZE + (parts.map WirePart.sizeWithPadding).sum

/-- `Request::varpart_size`: the single segment's size, cast `as u32`. -/
def varpart_size (parts : List WirePart) : Nat :=
  seg_size parts % 2 ^ 32

/-- `Request::serialize_impl`: 32-byte message header, 24-byte segment
header, then each part's bytes.  u32 arithmetic on the sizes is modelled
with explicit `% 2 ^ 32`. -/
def serialize_impl (session_id seq_number : Int) (request_type : Int)
    (auto_commit : Bool) (command_options : Nat) (parts : List WirePart) :
    List Nat :=
  let varpart := varpart_size parts
  let total_size := (MESSAGE_HEADER_SIZE + varpart) % 2 ^ 32
  let remaining_bufsize := (total_size + 2 ^ 32 - MESSAGE_HEADER_SIZE) % 2 ^ 32
  intToLe 8 session_id ++ intToLe 4 seq_number ++ natToLe 4 varpart ++
    natToLe 4 remaining_bufsize ++ intToLe 2 1 ++ List.replicate 10 0 ++
    (natToLe 4 (seg_size parts) ++ intToLe 4 0 ++ natToLe 2 parts.length ++
      intToLe 2 1 ++ [1] ++ intToLe 1 request_type ++
      [if auto_commit then 1 else 0] ++ [command_options % 256] ++
      List.replicate 8 0) ++
    (parts.map WirePart.bytes).flatten

/-- `enum Kind`: the segment-kind tag of an incoming message. -/
inductive SegmentKind where
  | request
  | reply
  | error
  deriving Repr, DecidableEq

/-- `Kind::from_i8`: 1, 2 and 5 are the known kinds; anything else is a
`PrtError::ProtocolError`. -/
def kind_from_i8 (val : Int) : Except Failure SegmentKind :=
  if val = 1 then .ok .request
  else if val = 2 then .ok .reply
  else if val = 5 then .ok .error
  else .error (.protocolError "Invalid value for message::Kind::from_i8() detected")

/-- An incoming message header, after `parse_message_and_sequence_header`.
Modelled from the spec: `RequestType::from_i8` and `ReplyType::from_i16`
(files `request_type.rs` / `reply_type.rs`, not under `src/`) are kept as
their raw integer tags, which claim C6 does not depend on. -/
inductive Message where
  | request (request_type : Int) (auto_commit : Bool) (command_options : Nat)
  | reply (session_id : Int) (reply_type : Int)
  deriving Repr, DecidableEq

/-- `pub fn parse_message_and_sequence_header`: read the 32-byte message
header — with `assert_eq!(no_of_segs, 1)` modelled as the `panic` outcome —
then the 24-byte segment header, returning the part count and the message
skeleton.  `rdr.consume(n)` never fails and is modelled as `List.drop`. -/
def parse_message_and_sequence_header (l : List Nat) :
    Except Failure (Int × Message) :=
  match readLeSigned 8 l with
  | .error e => .error e
  | .ok (session_id, l) =>
    match readLeSigned 4 l with
    | .error e => .error e
    | .ok (_packet_seq_number, l) =>
      match readLe 4 l with
      | .error e => .error e
      | .ok (_varpart_size, l) =>
        match readLe 4 l with
        | .error e => .error e
        | .ok (_remaining_bufsize, l) =>
          match readLeSigned 2 l with
          | .error e => .error e
          | .ok (no_of_segs, l) =>
            if no_of_segs = 1 then
              let l := l.drop 10
              match readLeSigned 4 l with
              | .error e => .error e
              | .ok (_seg_size, l) =>
                match readLeSigned 4 l with
                | .error e => .error e
                | .ok (_seg_offset, l) =>
                  match readLeSigned 2 l with
                  | .error e => .error e
                  | .ok (no_of_parts, l) =>
                    match readLeSigned 2 l with
                    | .error e => .error e
                    | .ok (_seg_number, l) =>
                      match readLeSigned 1 l with
                      | .error e => .error e
                      | .ok (kind_raw, l) =>
                        match kind_from_i8 kind_raw with
                        | .error e => .error e
                        | .ok .request =>
                          match readLeSigned 1 l with
                          | .error e => .error e
                          | .ok (request_type, l) =>
                            match readLeSigned 1 l with
                            | .error e => .error e
                            | .ok (auto_commit, l) =>
                              match readU8 l with
                              | .error e => .error e
                              | .ok (command_options, _l) =>
                                .ok (no_of_parts,
                                  .request request_type (auto_commit ≠ 0)
                                    command_options)
                        | .ok .reply | .ok .error =>
                          let l := l.drop 1
                          match readLeSigned 2 l with
                          | .error e => .error e
                          | .ok (reply_type, _l) =>
                            .ok (no_of_parts, .reply session_id reply_type)
            else .error .panic

/-! ## Statement-context echo (`src/protocol/lowlevel/message.rs`) -/

/-- The statement-context option bag.  Modelled from the spec:
`parts/statement_context.rs` is not under `src/`; the spec names the two
fields the dispatcher and the request builder use: the opaque
statement-sequence-info byte string and the server-processing-time. -/
structure StatementContext where
  statement_sequence_info : Option (List Nat)
  server_processing_time : Option Int
  deriving Repr, DecidableEq

/-- One row of already-converted parameters (`parts/parameters.rs` is not
under `src/`; a row is its ordered values). -/
structure ParameterRow where
  values : List HdbValue

/-- The request types the embedded operations use (numeric tags are
irrelevant to the claims). -/
inductive RequestType where
  | executeDirect
  | execute
  | prepare
  | dropStatementId
  | disconnect
  deriving Repr, DecidableEq

/-- The part payloads the embedded operations push into requests. -/
inductive Part where
  | statementContext (sc : StatementContext)
  | statementId (id : Nat)
  | parameters (rows : List ParameterRow)
  | command (cmd : List Nat)

/-- The connection-core state the claims touch.  Modelled from the spec:
`conn_core.rs` is not under `src/`; of the per-connection state only the
stored statement-sequence-info matters here. -/
structure ConnCore where
  ssi : Option (List Nat)
  deriving Repr, DecidableEq

/-- `ConnCore::set_ssi`. -/
def ConnCore.set_ssi (c : ConnCore) (v : Option (List Nat)) : ConnCore :=
  { c with ssi := v }

/-- `struct Request` of `message.rs`. -/
structure Request where
  request_type : RequestType
  auto_commit : Bool
  command_options : Nat
  parts : List Part

/-- `Request::add_ssi`: if the connection holds statement-sequence-info,
push a `StatementContext` part carrying it (a fresh default context with
only that field set); otherwise do nothing. -/
def Request.add_ssi (conn : ConnCore) (r : Request) : Request :=
  match conn.ssi with
  | none => r
  | some ssi =>
    { r with parts := r.parts ++ [.statementContext ⟨some ssi, none⟩] }

/-- `Request::new`: build the request with empty parts, then `add_ssi`. -/
def Request.new (conn : ConnCore) (rt : RequestType) (auto_commit : Bool)
    (command_options : Nat) : Request :=
  Request.add_ssi conn
    { request_type := rt, auto_commit := auto_commit,
      command_options := command_options, parts := [] }

/-- The `Argument::StatementContext` arm of
`Request::send_and_get_response`: store the reply's
statement-sequence-info into the connection and add the
server-processing-time to the accumulator. -/
def digest_statement_context (conn : ConnCore) (acc : Int)
    (sc : StatementContext) : ConnCore × Int :=
  (conn.set_ssi sc.statement_sequence_info,
    acc + match sc.server_processing_time with | some i => i | none => 0)

/-! ## Prepared statement (`src/prepared_statement.rs`) -/

/-- Modelled from the spec: the numeric value of the
`HOLD_CURSORS_OVER_COMMIT` command-option bit (`protocol/request.rs` is not
under `src/`); no claim depends on the value. -/
def HOLD_CURSORS_OVER_COMMIT : Nat := 8

/-- The prepared-statement state `execute_batch` reads: the statement id
and the optional batch buffer (the metadata fields are not consulted by
`execute_batch`). -/
structure PreparedStatement where
  statement_id : Nat
  o_batch : Option (List ParameterRow)

/-- Modelled from the spec: `Request::new(request_type, command_options)` of
`protocol/request.rs` (not under `src/`): an empty-part request builder used
by the prepared-statement path. -/
structure PsRequest where
  request_type : RequestType
  command_options : Nat
  parts : List Part

def PsRequest.new (rt : RequestType) (co : Nat) : PsRequest :=
  { request_type := rt, command_options := co, parts := [] }

def PsRequest.push (r : PsRequest) (p : Part) : PsRequest :=
  { r with parts := r.parts ++ [p] }

/-- `PreparedStatement::execute_parameter_rows`: build
`{Execute, StatementId, Parameters(rows)?}`.  The network send
(`full_send`) is abstracted away: the function returns the request that
would be sent. -/
def execute_parameter_rows (ps : PreparedStatement)
    (o_rows : Option (List ParameterRow)) : PsRequest :=
  let request := (PsRequest.new .execute HOLD_CURSORS_OVER_COMMIT).push
    (.statementId ps.statement_id)
  match o_rows with
  | some rows => request.push (.parameters rows)
  | none => request

/-- `PreparedStatement::execute_batch`: a non-empty batch is swapped out
(`mem::swap` leaves `Some(vec![])` behind) and sent; an empty or absent
batch is a `Usage` error and nothing is sent.  Returns the request that
would be sent and the updated statement. -/
def execute_batch (ps : PreparedStatement) :
    Except Failure (PsRequest × PreparedStatement) :=
  match ps.o_batch with
  | some rows1 =>
    if rows1.isEmpty then
      .error (.usage "The batch is empty and cannot be executed")
    else
      let ps2 := { ps with o_batch := some [] }
      .ok (execute_parameter_rows ps2 (some rows1), ps2)
  | none =>
    .error (.usage "The statement has no parameters, use of batch is not possible")

/-! ## Helper lemmas about the wire primitives -/

theorem natToLe_length (w n : Nat) : (natToLe w n).length = w := by
  induction w generalizing n with
  | zero => rfl
  | succ w ih => simp [natToLe, ih]

theorem natToLe_lt (w n : Nat) : ∀ b ∈ natToLe w n, b < 256 := by
  induction w generalizing n with
  | zero => intro b hb; simp [natToLe] at hb
  | succ w ih =>
    intro b hb
    simp only [natToLe, List.mem_cons] at hb
    rcases hb with h | h
    · subst h
      exact Nat.mod_lt _ (by decide)
    · exact ih _ _ h

theorem mod_mul_decomp (n m : Nat) :
    n % 256 + 256 * (n / 256 % m) = n % (256 * m) := by
  have h1 : n % (256 * m) / 256 = n / 256 % m :=
    Nat.mod_mul_right_div_self n 256 m
  have h2 : n % (256 * m) % 256 = n % 256 :=
    Nat.mod_mod_of_dvd n ⟨m, rfl⟩
  rw [← h1, ← h2, Nat.mod_add_div]

theorem leToNat_natToLe (w n : Nat) :
    leToNat (natToLe w n) = n % 2 ^ (8 * w) := by
  induction w generalizing n with
  | zero => simp [natToLe, leToNat, Nat.mod_one]
  | succ w ih =>
    have hpow : 2 ^ (8 * (w + 1)) = 256 * 2 ^ (8 * w) := by
      rw [Nat.mul_succ, Nat.pow_add]
      ring
    rw [natToLe, leToNat, ih, hpow, mod_mul_decomp]

theorem readBytes_append (a b : List Nat) :
    readBytes a.length (a ++ b) = .ok (a, b) := by
  rw [readBytes, if_pos (by simp), List.take_left, List.drop_left]

theorem readLe_natToLe (w n : Nat) (rest : List Nat) :
    readLe w (natToLe w n ++ rest) = .ok (n % 2 ^ (8 * w), rest) := by
  rw [readLe]
  have h := readBytes_append (natToLe w n) rest
  rw [natToLe_length] at h
  rw [h]
  simp [leToNat_natToLe]

theorem readLeSigned_natToLe (w n : Nat) (rest : List Nat) :
    readLeSigned w (natToLe w n ++ rest) =
      .ok (asSigned (8 * w) (n % 2 ^ (8 * w)), rest) := by
  rw [readLeSigned, readLe_natToLe]
  simp [Nat.mod_mod_of_dvd _ (dvd_refl (2 ^ (8 * w)))]

theorem except_bind_ok {α β : Type} (a : α) (f : α → Except Failure β) :
    (Except.ok a >>= f) = f a := rfl

theorem readLeSigned_intToLe (w : Nat) (hw : 0 < w) (i : Int)
    (h1 : -(2 ^ (8 * w - 1)) ≤ i) (h2 : i < 2 ^ (8 * w - 1))
    (rest : List Nat) :
    readLeSigned w (intToLe w i ++ rest) = .ok (i, rest) := by
  rw [intToLe, readLeSigned_natToLe]
  suffices h : asSigned (8 * w) ((i % 2 ^ (8 * w)).toNat % 2 ^ (8 * w)) = i by
    rw [h]
  have hMN : (2 : Int) ^ (8 * w) = 2 * 2 ^ (8 * w - 1) := by
    have he : 8 * w = (8 * w - 1) + 1 := by omega
    calc (2 : Int) ^ (8 * w) = 2 ^ ((8 * w - 1) + 1) := by rw [← he]
      _ = 2 * 2 ^ (8 * w - 1) := by rw [pow_succ]; ring
  have hM : (0 : Int) < 2 ^ (8 * w) := by positivity
  have hmodnn : 0 ≤ i % 2 ^ (8 * w) := Int.emod_nonneg i (ne_of_gt hM)
  have hmodlt : i % 2 ^ (8 * w) < 2 ^ (8 * w) := Int.emod_lt_of_pos i hM
  have htn : ((i % 2 ^ (8 * w)).toNat : Int) = i % 2 ^ (8 * w) :=
    Int.toNat_of_nonneg hmodnn
  have hcastM : (((2 : Nat) ^ (8 * w) : Nat) : Int) = (2 : Int) ^ (8 * w) := by
    push_cast
    ring
  have hcastN : (((2 : Nat) ^ (8 * w - 1) : Nat) : Int) =
      (2 : Int) ^ (8 * w - 1) := by
    push_cast
    ring
  have hlt : (i % 2 ^ (8 * w)).toNat < 2 ^ (8 * w) := by
    have := htn ▸ hmodlt
    exact_mod_cast hcastM ▸ this
  rw [Nat.mod_eq_of_lt hlt, asSigned]
  by_cases hpos : 0 ≤ i
  · have heq : i % 2 ^ (8 * w) = i :=
      Int.emod_eq_of_lt hpos (by omega)
    rw [if_pos ?_]
    · rw [htn, heq]
    · have : ((i % 2 ^ (8 * w)).toNat : Int) < (2 : Int) ^ (8 * w - 1) := by
        rw [htn, heq]
        exact h2
      exact_mod_cast hcastN ▸ this
  · push_neg at hpos
    have heq : i % 2 ^ (8 * w) = i + 2 ^ (8 * w) := by
      have h3 : (i + 2 ^ (8 * w) * 1) % 2 ^ (8 * w) = i % 2 ^ (8 * w) :=
        Int.add_mul_emod_self_left i (2 ^ (8 * w)) 1
      have h4 : (i + 2 ^ (8 * w)) % 2 ^ (8 * w) = i + 2 ^ (8 * w) :=
        Int.emod_eq_of_lt (by omega) (by omega)
      calc i % 2 ^ (8 * w) = (i + 2 ^ (8 * w) * 1) % 2 ^ (8 * w) := h3.symm
        _ = i + 2 ^ (8 * w) := by rw [mul_one] at *; exact h4
    rw [if_neg ?_]
    · rw [htn, heq, hMN]
      ring
    · intro hcon
      have : ((i % 2 ^ (8 * w)).toNat : Int) < (2 : Int) ^ (8 * w - 1) := by
        rw [← hcastN]
        exact_mod_cast hcon
      rw [htn, heq] at this
      omega


theorem i64AsUsize_ofNat (n : Nat) (h : n < 2 ^ 64) : i64AsUsize n = n := by
  rw [i64AsUsize, Int.emod_eq_of_lt (by positivity) (by exact_mod_cast h)]
  exact Int.toNat_natCast n

theorem asSigned_of_lt (bits n : Nat) (h : n < 2 ^ (bits - 1)) :
    asSigned bits n = n := if_pos h

end Hdb

/-- C9: the padding function satisfies `pad(0) = 0` and
`pad(n) = 7 - (n-1) mod 8` for `n > 0`, and consequently for every size
`n ≥ 0`, `(n + pad(n)) % 8 = 0` and `pad(n) < 8`. -/
theorem Hdb.padsize_law :
    Hdb.padsize 0 = 0 ∧
    (∀ n : Nat, 0 < n → Hdb.padsize n = 7 - (n - 1) % 8) ∧
    (∀ n : Nat, (n + Hdb.padsize n) % 8 = 0 ∧ Hdb.padsize n < 8) := by
  refine ⟨rfl, ?_, ?_⟩
  · intro n hn
    match n, hn with
    | n + 1, _ => rfl
  · intro n
    match n with
    | 0 => exact ⟨rfl, by decide⟩
    | m + 1 =>
      constructor
      · show (m + 1 + (7 - m % 8)) % 8 = 0
        omega
      · show 7 - m % 8 < 8
        omega

/-- Witness for C9 at `n = 3`: `padsize 3 = 7 - 2 % 8 = 5`, `(3 + 5) % 8 = 0`
and `5 < 8`. -/
theorem Hdb.padsize_law_witness :
    (0 : Nat) < 3 ∧ Hdb.padsize 3 = 7 - (3 - 1) % 8 ∧
      ((3 : Nat) + Hdb.padsize 3) % 8 = 0 ∧ Hdb.padsize 3 < 8 :=
  ⟨by decide, Hdb.padsize_law.2.1 3 (by decide),
    (Hdb.padsize_law.2.2 3).1, (Hdb.padsize_law.2.2 3).2⟩

/-- Helper: for any byte vector of length exactly `2 ^ 31`,
`serialize_length_and_bytes` truncates the length with `l as i32` to the
negative value `-2 ^ 31`, whose `as usize` reinterpretation on the parse side
(`2 ^ 64 - 2 ^ 31`) exceeds the available bytes, so parsing fails. -/
theorem Hdb.parse_serialize_fails_at_two_pow_31 (v : List Nat)
    (hv : v.length = 2 ^ 31) :
    Hdb.parse_nullable_binary (Hdb.serialize_length_and_bytes v) =
      Except.error Hdb.Failure.ioError := by
  have hser : Hdb.serialize_length_and_bytes v =
      247 :: (Hdb.natToLe 4 (2 ^ 31) ++ v) := by
    rw [Hdb.serialize_length_and_bytes]
    rw [if_neg (by rw [hv]; decide), if_neg (by rw [hv]; decide), hv]
    rfl
  have hdec : Hdb.decode_length_indicator true 247 (Hdb.natToLe 4 (2 ^ 31) ++ v) =
      Except.ok (some (2 ^ 64 - 2 ^ 31), v) := by
    rw [Hdb.decode_length_indicator]
    rw [if_neg (by decide), if_neg (by decide), if_pos (by decide)]
    rw [Hdb.readLeSigned_natToLe]
    norm_num [Hdb.asSigned, Hdb.i64AsUsize]
    decide
  have hread : Hdb.readBytes (2 ^ 64 - 2 ^ 31) v =
      Except.error Hdb.Failure.ioError := by
    rw [Hdb.readBytes, if_neg (by rw [hv]; decide)]
  rw [hser, Hdb.parse_nullable_binary]
  simp only [Hdb.readU8, hdec, hread]

/-- C2 (counterexample): the round-trip law as claimed, for every byte
vector, fails at the concrete vector `List.replicate (2 ^ 31) 0`: parsing the
serialized form raises an error instead of yielding `Some v`, because the
emitted signed 32-bit length field cannot represent `2 ^ 31`. -/
theorem Hdb.length_framing_roundtrip_counterexample :
    Hdb.parse_nullable_binary
        (Hdb.serialize_length_and_bytes (List.replicate (2 ^ 31) 0)) ≠
      Except.ok (some (List.replicate (2 ^ 31) 0), ([] : List Nat)) := by
  rw [Hdb.parse_serialize_fails_at_two_pow_31 (List.replicate (2 ^ 31) 0)
    (List.length_replicate _ _)]
  exact fun h => Except.noConfusion h

theorem Hdb.decode_length_indicator_small (nullable : Bool) (l8 : Nat)
    (h : l8 ≤ 245) (rest : List Nat) :
    Hdb.decode_length_indicator nullable l8 rest = Except.ok (some l8, rest) :=
  if_pos h

theorem Hdb.decode_length_indicator_2byte (nullable : Bool) (len : Nat)
    (h : len ≤ 32767) (rest : List Nat) :
    Hdb.decode_length_indicator nullable 246 (Hdb.natToLe 2 len ++ rest) =
      Except.ok (some len, rest) := by
  rw [Hdb.decode_length_indicator, if_neg (by decide), if_pos (by decide)]
  rw [Hdb.readLeSigned_natToLe]
  have hm : len % 2 ^ (8 * 2) = len := Nat.mod_eq_of_lt (by omega)
  rw [hm, Hdb.asSigned_of_lt _ _ (by norm_num; omega)]
  simp [Hdb.i64AsUsize_ofNat _ (show len < 2 ^ 64 by omega)]

theorem Hdb.decode_length_indicator_4byte (nullable : Bool) (len : Nat)
    (h : len < 2 ^ 31) (rest : List Nat) :
    Hdb.decode_length_indicator nullable 247 (Hdb.natToLe 4 len ++ rest) =
      Except.ok (some len, rest) := by
  rw [Hdb.decode_length_indicator, if_neg (by decide), if_neg (by decide),
    if_pos (by decide)]
  rw [Hdb.readLeSigned_natToLe]
  have hm : len % 2 ^ (8 * 4) = len := Nat.mod_eq_of_lt (by omega)
  rw [hm, Hdb.asSigned_of_lt _ _ (by norm_num; omega)]
  simp [Hdb.i64AsUsize_ofNat _ (show len < 2 ^ 64 by omega)]

theorem Hdb.decode_length_indicator_null (rest : List Nat) :
    Hdb.decode_length_indicator true 255 rest = Except.ok (none, rest) := by
  rw [Hdb.decode_length_indicator, if_neg (by decide), if_neg (by decide),
    if_neg (by decide), if_pos (by decide)]

theorem Hdb.decode_length_indicator_null_err (rest : List Nat) :
    Hdb.decode_length_indicator false 255 rest =
      Except.error (Hdb.Failure.implErr "Invalid value in length indicator") := by
  rw [Hdb.decode_length_indicator, if_neg (by decide), if_neg (by decide),
    if_neg (by decide), if_neg (by decide)]

/-- C2 (amended): for every byte vector `v` whose length is representable in
a signed 32-bit field (`v.len() ≤ 2^31 - 1`), parsing the output of
`serialize_length_and_bytes(v)` with `parse_nullable_binary` yields `Some v`
(any trailing bytes untouched); the emitted framing is one indicator byte
equal to the length when `v.len() ≤ 245`, indicator 246 plus a little-endian
16-bit length when `v.len() ≤ 32767`, indicator 247 plus a little-endian
32-bit length above that; indicator 255 parses as NULL (`none`) in nullable
contexts and is an error in non-nullable contexts (`parse_binary`). -/
theorem Hdb.serialize_length_and_bytes_eq (v : List Nat) :
    Hdb.serialize_length_and_bytes v =
      if v.length ≤ 245 then v.length :: v
      else if v.length ≤ 32767 then 246 :: (Hdb.natToLe 2 v.length ++ v)
      else 247 :: (Hdb.natToLe 4 v.length ++ v) := by
  simp only [Hdb.serialize_length_and_bytes, Hdb.MAX_1_BYTE_LENGTH,
    Hdb.MAX_2_BYTE_LENGTH, Hdb.LENGTH_INDICATOR_2BYTE,
    Hdb.LENGTH_INDICATOR_4BYTE, List.cons_append]

theorem Hdb.length_framing_law (v rest : List Nat) :
    (v.length < 2 ^ 31 →
      Hdb.parse_nullable_binary (Hdb.serialize_length_and_bytes v ++ rest) =
        Except.ok (some v, rest)) ∧
    (v.length ≤ 245 →
      Hdb.serialize_length_and_bytes v = v.length :: v) ∧
    (245 < v.length → v.length ≤ 32767 →
      Hdb.serialize_length_and_bytes v =
        246 :: (Hdb.natToLe 2 v.length ++ v)) ∧
    (32767 < v.length →
      Hdb.serialize_length_and_bytes v =
        247 :: (Hdb.natToLe 4 v.length ++ v)) ∧
    Hdb.parse_nullable_binary (255 :: rest) = Except.ok (none, rest) ∧
    Hdb.parse_binary (255 :: rest) =
      Except.error (Hdb.Failure.implErr "Invalid value in length indicator") := by
  refine ⟨?_, ?_, ?_, ?_, ?_, ?_⟩
  · intro hlt
    rw [Hdb.serialize_length_and_bytes_eq]
    by_cases h1 : v.length ≤ 245
    · rw [if_pos h1]
      rw [show (v.length :: v) ++ rest = v.length :: (v ++ rest) from rfl]
      rw [Hdb.parse_nullable_binary]
      simp only [Hdb.readU8, Hdb.decode_length_indicator_small true v.length h1,
        Hdb.readBytes_append]
    · by_cases h2 : v.length ≤ 32767
      · rw [if_neg h1, if_pos h2]
        rw [show (246 :: (Hdb.natToLe 2 v.length ++ v)) ++ rest
            = 246 :: (Hdb.natToLe 2 v.length ++ (v ++ rest)) from by simp]
        rw [Hdb.parse_nullable_binary]
        simp only [Hdb.readU8,
          Hdb.decode_length_indicator_2byte true v.length h2,
          Hdb.readBytes_append]
      · rw [if_neg h1, if_neg h2]
        rw [show (247 :: (Hdb.natToLe 4 v.length ++ v)) ++ rest
            = 247 :: (Hdb.natToLe 4 v.length ++ (v ++ rest)) from by simp]
        rw [Hdb.parse_nullable_binary]
        simp only [Hdb.readU8,
          Hdb.decode_length_indicator_4byte true v.length hlt,
          Hdb.readBytes_append]
  · intro h1
    rw [Hdb.serialize_length_and_bytes_eq, if_pos h1]
  · intro h1 h2
    rw [Hdb.serialize_length_and_bytes_eq, if_neg (by omega), if_pos h2]
  · intro h3
    rw [Hdb.serialize_length_and_bytes_eq, if_neg (by omega), if_neg (by omega)]
  · rw [Hdb.parse_nullable_binary]
    simp only [Hdb.readU8, Hdb.decode_length_indicator_null]
  · rw [Hdb.parse_binary]
    simp only [Hdb.readU8, Hdb.decode_length_indicator_null_err]

set_option maxRecDepth 8000 in
/-- Witness for C2 (amended), at `v = [1, 2, 3]`, `rest = [9]`, and at a
246-framed vector of length 300. -/
theorem Hdb.length_framing_law_witness :
    (([1, 2, 3] : List Nat).length < 2 ^ 31 ∧
      Hdb.parse_nullable_binary
          (Hdb.serialize_length_and_bytes [1, 2, 3] ++ [9]) =
        Except.ok (some [1, 2, 3], [9])) ∧
    (245 < (List.replicate 300 (7 : Nat)).length ∧
      (List.replicate 300 (7 : Nat)).length ≤ 32767 ∧
      Hdb.serialize_length_and_bytes (List.replicate 300 7) =
        246 :: (Hdb.natToLe 2 (List.replicate 300 (7 : Nat)).length ++
          List.replicate 300 7)) :=
  ⟨⟨by decide, (Hdb.length_framing_law [1, 2, 3] [9]).1 (by decide)⟩,
    ⟨by decide, by decide,
      (Hdb.length_framing_law (List.replicate 300 7) []).2.2.1
        (by decide) (by decide)⟩⟩

/-- C1 (code bug): `serialize_type_id`'s null-variant match omits
`N_DECIMAL(None)`, `N_SMALLDECIMAL(None)`, `N_DOUBLE(None)`,
`N_DAYDATE(None)`, `N_SECONDDATE(None)` and `N_SECONDTIME(None)`, so for
these six null values the single emitted byte is the NON-null type id
(`type_id() % 128`) with no payload — contradicting the function's own rule
that ids above 128 mark null values — while the 21 variants the match does
list correctly get the non-null id plus 128. -/
theorem Hdb.serialize_null_type_id_bug :
    Hdb.serialize (.N_DOUBLE none) 0 = Except.ok ([7], 0) ∧
    Hdb.typeId (.N_DOUBLE none) = 135 ∧
    Hdb.serialize (.N_DECIMAL none) 0 = Except.ok ([5], 0) ∧
    Hdb.serialize (.N_SMALLDECIMAL none) 0 = Except.ok ([47], 0) ∧
    Hdb.serialize (.N_DAYDATE none) 0 = Except.ok ([63], 0) ∧
    Hdb.serialize (.N_SECONDDATE none) 0 = Except.ok ([62], 0) ∧
    Hdb.serialize (.N_SECONDTIME none) 0 = Except.ok ([64], 0) ∧
    Hdb.serialize (.N_TINYINT none) 0 = Except.ok ([129], 0) ∧
    Hdb.serialize (.N_BOOLEAN none) 0 = Except.ok ([156], 0) ∧
    Hdb.serialize (.N_STRING none) 0 = Except.ok ([157], 0) ∧
    Hdb.serialize (.N_BLOB none) 0 = Except.ok ([155], 0) := by decide

/-- C4 (counterexample): the raw wire value 86_401 does not decode to
23:59:59 — `as_hms` yields the out-of-range 24:00:00 for it (86_400 is the
value that decodes to 23:59:59). -/
theorem Hdb.secondtime_86401_counterexample :
    Hdb.parse_nullable_secondtime (Hdb.intToLe 4 86401) =
      Except.ok (some ⟨86401⟩, []) ∧
    Hdb.SecondTime.as_hms ⟨86401⟩ = (24, 0, 0) ∧
    Hdb.SecondTime.as_hms ⟨86401⟩ ≠ (23, 59, 59) := by decide

/-- C4 (amended): SECONDTIME decoding — raw wire values 0 and 1 both decode
to 00:00:00; raw value 86_400 decodes to 23:59:59 (while 86_401, which the
constructor's assertion still admits, decodes to 24:00:00); and raw value
86_402 is the NULL sentinel: `parse_nullable_secondtime` returns `None` for
it and `parse_secondtime` returns an `Impl` error for it. -/
theorem Hdb.secondtime_decoding :
    Hdb.parse_secondtime (Hdb.intToLe 4 0) = Except.ok (⟨0⟩, []) ∧
    Hdb.SecondTime.as_hms ⟨0⟩ = (0, 0, 0) ∧
    Hdb.parse_secondtime (Hdb.intToLe 4 1) = Except.ok (⟨1⟩, []) ∧
    Hdb.SecondTime.as_hms ⟨1⟩ = (0, 0, 0) ∧
    Hdb.parse_secondtime (Hdb.intToLe 4 86400) = Except.ok (⟨86400⟩, []) ∧
    Hdb.SecondTime.as_hms ⟨86400⟩ = (23, 59, 59) ∧
    Hdb.SecondTime.as_hms ⟨86401⟩ = (24, 0, 0) ∧
    Hdb.parse_nullable_secondtime (Hdb.intToLe 4 86402) =
      Except.ok (none, []) ∧
    Hdb.parse_secondtime (Hdb.intToLe 4 86402) =
      Except.error
        (Hdb.Failure.implErr "Null value found for non-null secondtime column") := by
  decide

/-- C10 (counterexample): `parse_nullable_secondtime` is not total — on the
4-byte inputs encoding 86_403 and -1 the assertion inside `SecondTime::new`
fails, i.e. the parser panics instead of returning a value. -/
theorem Hdb.secondtime_parser_panic_counterexample :
    Hdb.parse_nullable_secondtime (Hdb.intToLe 4 86403) =
      Except.error Hdb.Failure.panic ∧
    Hdb.parse_nullable_secondtime (Hdb.intToLe 4 (-1)) =
      Except.error Hdb.Failure.panic := by decide

/-- C10 (amended): `parse_nullable_secondtime` on any 4-byte little-endian
signed input returns `None` exactly for the sentinel 86_402 and
`Some(SecondTime)` exactly for raw values in `[0, 86_402)`; for every other
raw value (negative, or above the sentinel) the assertion
`raw < 86_402 && raw >= 0` inside `SecondTime::new` fails and the parser
panics. -/
theorem Hdb.secondtime_parser_totality (raw : Int) (rest : List Nat)
    (h1 : -(2 ^ 31) ≤ raw) (h2 : raw < 2 ^ 31) :
    Hdb.parse_nullable_secondtime (Hdb.intToLe 4 raw ++ rest) =
      if raw = 86402 then Except.ok (none, rest)
      else if raw < 86402 ∧ raw ≥ 0 then Except.ok (some ⟨raw.toNat⟩, rest)
      else Except.error Hdb.Failure.panic := by
  rw [Hdb.parse_nullable_secondtime,
    Hdb.readLeSigned_intToLe 4 (by norm_num) raw h1 h2 rest]
  simp only [Hdb.NULL_REPRESENTATION, Hdb.SecondTime.new]
  by_cases hn : raw = 86402
  · simp [hn]
  · by_cases hr : raw < 86402 ∧ raw ≥ 0
    · simp [hn, hr]
    · simp [hn, hr]

/-- Witness for C10 (amended) at `raw = 5`. -/
theorem Hdb.secondtime_parser_totality_witness :
    (-(2 ^ 31) : Int) ≤ 5 ∧ (5 : Int) < 2 ^ 31 ∧
    Hdb.parse_nullable_secondtime (Hdb.intToLe 4 5 ++ []) =
      Except.ok (some ⟨(5 : Int).toNat⟩, []) :=
  ⟨by norm_num, by norm_num,
    (Hdb.secondtime_parser_totality 5 [] (by norm_num) (by norm_num)).trans
      (by decide)⟩

/-- C5: statement-context echo — when a reply's `StatementContext` carries
statement-sequence-info `x`, the dispatcher arm stores `x` in the connection
state, and every `Request::new` built on that state contains exactly one
`StatementContext` part carrying `x`; when the connection holds no
statement-sequence-info, `Request::new` adds no part. -/
theorem Hdb.statement_context_echo (conn : Hdb.ConnCore) (acc : Int)
    (ctx : Hdb.StatementContext) (x : List Nat) (rt : Hdb.RequestType)
    (ac : Bool) (co : Nat) :
    (ctx.statement_sequence_info = some x →
      (Hdb.digest_statement_context conn acc ctx).1.ssi = some x ∧
      (Hdb.Request.new (Hdb.digest_statement_context conn acc ctx).1
          rt ac co).parts =
        [Hdb.Part.statementContext ⟨some x, none⟩]) ∧
    (conn.ssi = none → (Hdb.Request.new conn rt ac co).parts = []) := by
  constructor
  · intro hx
    constructor
    · simp [Hdb.digest_statement_context, Hdb.ConnCore.set_ssi, hx]
    · simp [Hdb.digest_statement_context, Hdb.ConnCore.set_ssi, hx,
        Hdb.Request.new, Hdb.Request.add_ssi]
  · intro hnone
    simp [Hdb.Request.new, Hdb.Request.add_ssi, hnone]

/-- Witness for C5 at `ssi = [1, 2]` on a connection that previously held
none. -/
theorem Hdb.statement_context_echo_witness :
    ((Hdb.digest_statement_context ⟨none⟩ 0 ⟨some [1, 2], some 7⟩).1.ssi =
        some [1, 2] ∧
      (Hdb.Request.new (Hdb.digest_statement_context ⟨none⟩ 0
          ⟨some [1, 2], some 7⟩).1 .execute true 8).parts =
        [Hdb.Part.statementContext ⟨some [1, 2], none⟩]) ∧
    (Hdb.Request.new ⟨none⟩ .execute true 8).parts = [] :=
  ⟨(Hdb.statement_context_echo ⟨none⟩ 0 ⟨some [1, 2], some 7⟩ [1, 2]
      .execute true 8).1 rfl,
    (Hdb.statement_context_echo ⟨none⟩ 0 ⟨some [1, 2], some 7⟩ [1, 2]
      .execute true 8).2 rfl⟩

/-- C7: `execute_batch` — with a non-empty batch it sends exactly the batched
rows in insertion order (an `Execute` request with the statement-id part and
one `Parameters` part holding the rows) and leaves the batch empty; with an
existing but empty batch it is a `Usage` error and nothing is sent; with no
batch (statement without parameters) it is a `Usage` error and nothing is
sent. -/
theorem Hdb.execute_batch_spec (ps : Hdb.PreparedStatement) :
    (∀ rows, ps.o_batch = some rows → rows ≠ [] →
      Hdb.execute_batch ps = Except.ok
        ({ request_type := .execute,
           command_options := Hdb.HOLD_CURSORS_OVER_COMMIT,
           parts := [.statementId ps.statement_id, .parameters rows] },
          { ps with o_batch := some [] })) ∧
    (ps.o_batch = some [] →
      Hdb.execute_batch ps =
        Except.error (.usage "The batch is empty and cannot be executed")) ∧
    (ps.o_batch = none →
      Hdb.execute_batch ps =
        Except.error
          (.usage "The statement has no parameters, use of batch is not possible")) := by
  refine ⟨?_, ?_, ?_⟩
  · intro rows hb hne
    simp [Hdb.execute_batch, hb, hne, List.isEmpty_iff,
      Hdb.execute_parameter_rows, Hdb.PsRequest.new, Hdb.PsRequest.push]
  · intro hb
    simp [Hdb.execute_batch, hb]
  · intro hb
    simp [Hdb.execute_batch, hb]

/-- Witness for C7: a one-row batch on statement 42 is sent and cleared; an
empty batch and an absent batch raise `Usage` errors. -/
theorem Hdb.execute_batch_spec_witness :
    Hdb.execute_batch ⟨42, some [⟨[Hdb.HdbValue.INT 1]⟩]⟩ = Except.ok
      ({ request_type := .execute,
         command_options := Hdb.HOLD_CURSORS_OVER_COMMIT,
         parts := [.statementId 42,
           .parameters [⟨[Hdb.HdbValue.INT 1]⟩]] },
        ⟨42, some []⟩) ∧
    Hdb.execute_batch ⟨42, some []⟩ =
      Except.error (.usage "The batch is empty and cannot be executed") ∧
    Hdb.execute_batch ⟨42, none⟩ =
      Except.error
        (.usage "The statement has no parameters, use of batch is not possible") :=
  ⟨(Hdb.execute_batch_spec ⟨42, some [⟨[Hdb.HdbValue.INT 1]⟩]⟩).1
      [⟨[Hdb.HdbValue.INT 1]⟩] rfl (by simp),
    (Hdb.execute_batch_spec ⟨42, some []⟩).2.1 rfl,
    (Hdb.execute_batch_spec ⟨42, none⟩).2.2 rfl⟩

/-- C6 (counterexample): on a reply whose message header reports 2 segments
(bytes: zeros for session id, sequence number, varpart size and remaining
buffer size, then segment count 2), `parse_message_and_sequence_header` hits
`assert_eq!(no_of_segs, 1)` and panics — it does not return a Protocol
error value to the caller. -/
theorem Hdb.segcount_counterexample :
    Hdb.parse_message_and_sequence_header (List.replicate 20 0 ++ [2, 0]) =
      Except.error Hdb.Failure.panic ∧
    ¬ ∃ msg, Hdb.parse_message_and_sequence_header
        (List.replicate 20 0 ++ [2, 0]) =
      Except.error (Hdb.Failure.protocolError msg) := by
  have h : Hdb.parse_message_and_sequence_header
      (List.replicate 20 0 ++ [2, 0]) = Except.error Hdb.Failure.panic := by
    decide
  refine ⟨h, ?_⟩
  rintro ⟨msg, hm⟩
  rw [h] at hm
  exact Hdb.Failure.noConfusion (Except.error.inj hm)

/-- C6 (amended): whenever the incoming message header's segment-count field
decodes to a value other than 1, `parse_message_and_sequence_header` panics
(the `assert_eq!` aborts the call) — this panic, not a returned Protocol
error, is the behaviour on a segment count ≠ 1; unknown segment *kinds*, by
contrast, do yield a Protocol error (`Kind::from_i8`). -/
theorem Hdb.parse_header_segcount_panic (sid seq vp rb : Nat) (segs : Int)
    (hlo : -(2 ^ 15) ≤ segs) (hhi : segs < 2 ^ 15) (hs : segs ≠ 1)
    (rest : List Nat) :
    Hdb.parse_message_and_sequence_header
      (Hdb.natToLe 8 sid ++ (Hdb.natToLe 4 seq ++ (Hdb.natToLe 4 vp ++
        (Hdb.natToLe 4 rb ++ (Hdb.intToLe 2 segs ++ rest))))) =
      Except.error Hdb.Failure.panic := by
  rw [Hdb.parse_message_and_sequence_header]
  simp only [Hdb.readLeSigned_natToLe, Hdb.readLe_natToLe,
    Hdb.readLeSigned_intToLe 2 (by norm_num) segs hlo hhi rest, hs, if_false]

/-- Witness for C6 (amended) at segment count 3. -/
theorem Hdb.parse_header_segcount_panic_witness :
    (-(2 ^ 15) : Int) ≤ 3 ∧ (3 : Int) < 2 ^ 15 ∧ (3 : Int) ≠ 1 ∧
    Hdb.parse_message_and_sequence_header
      (Hdb.natToLe 8 7 ++ (Hdb.natToLe 4 1 ++ (Hdb.natToLe 4 0 ++
        (Hdb.natToLe 4 0 ++ (Hdb.intToLe 2 3 ++ []))))) =
      Except.error Hdb.Failure.panic :=
  ⟨by norm_num, by norm_num, by norm_num,
    Hdb.parse_header_segcount_panic 7 1 0 0 3 (by norm_num) (by norm_num)
      (by norm_num) []⟩

theorem Hdb.readLe4_cons (b0 b1 b2 b3 : Nat) (rest : List Nat) :
    Hdb.readLe 4 (b0 :: b1 :: b2 :: b3 :: rest) =
      Except.ok (Hdb.leToNat [b0, b1, b2, b3], rest) := by
  rw [Hdb.readLe, Hdb.readBytes, if_pos (by simp)]
  rw [show (b0 :: b1 :: b2 :: b3 :: rest).take 4 = [b0, b1, b2, b3] from rfl,
    show (b0 :: b1 :: b2 :: b3 :: rest).drop 4 = rest from rfl]

theorem Hdb.readLe8_cons (d0 d1 d2 d3 d4 d5 d6 d7 : Nat) (rest : List Nat) :
    Hdb.readLe 8 (d0 :: d1 :: d2 :: d3 :: d4 :: d5 :: d6 :: d7 :: rest) =
      Except.ok (Hdb.leToNat [d0, d1, d2, d3, d4, d5, d6, d7], rest) := by
  rw [Hdb.readLe, Hdb.readBytes, if_pos (by simp)]
  rw [show (d0 :: d1 :: d2 :: d3 :: d4 :: d5 :: d6 :: d7 :: rest).take 8 =
      [d0, d1, d2, d3, d4, d5, d6, d7] from rfl,
    show (d0 :: d1 :: d2 :: d3 :: d4 :: d5 :: d6 :: d7 :: rest).drop 8 =
      rest from rfl]

theorem Hdb.parse_nullable_real_cons (b0 b1 b2 b3 : Nat) (rest : List Nat) :
    Hdb.parse_nullable_real (b0 :: b1 :: b2 :: b3 :: rest) =
      if Hdb.leToNat [b0, b1, b2, b3] = 2 ^ 32 - 1 then Except.ok (none, rest)
      else Except.ok (some (Hdb.leToNat [b0, b1, b2, b3]), rest) := by
  rw [Hdb.parse_nullable_real, Hdb.readLe4_cons]

theorem Hdb.parse_real_cons (b0 b1 b2 b3 : Nat) (rest : List Nat) :
    Hdb.parse_real (b0 :: b1 :: b2 :: b3 :: rest) =
      if Hdb.leToNat [b0, b1, b2, b3] = 2 ^ 32 - 1 then
        Except.error (.implErr "Unexpected NULL Value in parse_real()")
      else Except.ok (Hdb.leToNat [b0, b1, b2, b3], rest) := by
  rw [Hdb.parse_real, Hdb.readLe4_cons]

theorem Hdb.parse_nullable_double_cons (d0 d1 d2 d3 d4 d5 d6 d7 : Nat)
    (rest : List Nat) :
    Hdb.parse_nullable_double
        (d0 :: d1 :: d2 :: d3 :: d4 :: d5 :: d6 :: d7 :: rest) =
      if Hdb.leToNat [d0, d1, d2, d3, d4, d5, d6, d7] = 2 ^ 64 - 1 then
        Except.ok (none, rest)
      else Except.ok (some (Hdb.leToNat [d0, d1, d2, d3, d4, d5, d6, d7]), rest) := by
  rw [Hdb.parse_nullable_double, Hdb.readLe8_cons]

theorem Hdb.parse_double_cons (d0 d1 d2 d3 d4 d5 d6 d7 : Nat)
    (rest : List Nat) :
    Hdb.parse_double (d0 :: d1 :: d2 :: d3 :: d4 :: d5 :: d6 :: d7 :: rest) =
      if Hdb.leToNat [d0, d1, d2, d3, d4, d5, d6, d7] = 2 ^ 64 - 1 then
        Except.error (.implErr "Unexpected NULL Value in parse_double()")
      else Except.ok (Hdb.leToNat [d0, d1, d2, d3, d4, d5, d6, d7], rest) := by
  rw [Hdb.parse_double, Hdb.readLe8_cons]

/-- C8: REAL/DOUBLE NULL sentinels — `parse_nullable_real` returns `None`
exactly when the 4 bytes read are all ones, and `parse_nullable_double`
exactly when the 8 bytes read are all ones; every other bit pattern (hence
in particular the infinities and negative zero, whose patterns are not
all-ones) yields `Some` of the decoded word; the non-nullable `parse_real` /
`parse_double` raise an `Impl` error on the sentinel instead. -/
theorem Hdb.real_double_null_sentinel
    (b0 b1 b2 b3 d0 d1 d2 d3 d4 d5 d6 d7 : Nat)
    (hb0 : b0 < 256) (hb1 : b1 < 256) (hb2 : b2 < 256) (_hb3 : b3 < 256)
    (hd0 : d0 < 256) (hd1 : d1 < 256) (hd2 : d2 < 256) (hd3 : d3 < 256)
    (hd4 : d4 < 256) (hd5 : d5 < 256) (hd6 : d6 < 256) (_hd7 : d7 < 256)
    (rest : List Nat) :
    (Hdb.parse_nullable_real (b0 :: b1 :: b2 :: b3 :: rest) =
        Except.ok (none, rest) ↔
      (b0 = 255 ∧ b1 = 255 ∧ b2 = 255 ∧ b3 = 255)) ∧
    (¬(b0 = 255 ∧ b1 = 255 ∧ b2 = 255 ∧ b3 = 255) →
      Hdb.parse_nullable_real (b0 :: b1 :: b2 :: b3 :: rest) =
        Except.ok (some (Hdb.leToNat [b0, b1, b2, b3]), rest) ∧
      Hdb.parse_real (b0 :: b1 :: b2 :: b3 :: rest) =
        Except.ok (Hdb.leToNat [b0, b1, b2, b3], rest)) ∧
    ((b0 = 255 ∧ b1 = 255 ∧ b2 = 255 ∧ b3 = 255) →
      Hdb.parse_real (b0 :: b1 :: b2 :: b3 :: rest) =
        Except.error (.implErr "Unexpected NULL Value in parse_real()")) ∧
    (Hdb.parse_nullable_double
        (d0 :: d1 :: d2 :: d3 :: d4 :: d5 :: d6 :: d7 :: rest) =
        Except.ok (none, rest) ↔
      (d0 = 255 ∧ d1 = 255 ∧ d2 = 255 ∧ d3 = 255 ∧ d4 = 255 ∧ d5 = 255 ∧
        d6 = 255 ∧ d7 = 255)) ∧
    (¬(d0 = 255 ∧ d1 = 255 ∧ d2 = 255 ∧ d3 = 255 ∧ d4 = 255 ∧ d5 = 255 ∧
        d6 = 255 ∧ d7 = 255) →
      Hdb.parse_nullable_double
          (d0 :: d1 :: d2 :: d3 :: d4 :: d5 :: d6 :: d7 :: rest) =
        Except.ok (some (Hdb.leToNat [d0, d1, d2, d3, d4, d5, d6, d7]), rest) ∧
      Hdb.parse_double (d0 :: d1 :: d2 :: d3 :: d4 :: d5 :: d6 :: d7 :: rest) =
        Except.ok (Hdb.leToNat [d0, d1, d2, d3, d4, d5, d6, d7], rest)) ∧
    ((d0 = 255 ∧ d1 = 255 ∧ d2 = 255 ∧ d3 = 255 ∧ d4 = 255 ∧ d5 = 255 ∧
        d6 = 255 ∧ d7 = 255) →
      Hdb.parse_double (d0 :: d1 :: d2 :: d3 :: d4 :: d5 :: d6 :: d7 :: rest) =
        Except.error (.implErr "Unexpected NULL Value in parse_double()")) := by
  have hiff4 : Hdb.leToNat [b0, b1, b2, b3] = 2 ^ 32 - 1 ↔
      (b0 = 255 ∧ b1 = 255 ∧ b2 = 255 ∧ b3 = 255) := by
    simp only [Hdb.leToNat]
    omega
  have hiff8 : Hdb.leToNat [d0, d1, d2, d3, d4, d5, d6, d7] = 2 ^ 64 - 1 ↔
      (d0 = 255 ∧ d1 = 255 ∧ d2 = 255 ∧ d3 = 255 ∧ d4 = 255 ∧ d5 = 255 ∧
        d6 = 255 ∧ d7 = 255) := by
    simp only [Hdb.leToNat]
    omega
  refine ⟨?_, ?_, ?_, ?_, ?_, ?_⟩
  · rw [Hdb.parse_nullable_real_cons]
    by_cases hsent : Hdb.leToNat [b0, b1, b2, b3] = 2 ^ 32 - 1
    · rw [if_pos hsent]
      exact ⟨fun _ => hiff4.mp hsent, fun _ => rfl⟩
    · have hno : ¬(b0 = 255 ∧ b1 = 255 ∧ b2 = 255 ∧ b3 = 255) :=
        fun hc => hsent (hiff4.mpr hc)
      rw [if_neg hsent]
      simp [hno]
  · intro hno
    have hsent : ¬ Hdb.leToNat [b0, b1, b2, b3] = 2 ^ 32 - 1 :=
      fun h => hno (hiff4.mp h)
    constructor
    · rw [Hdb.parse_nullable_real_cons, if_neg hsent]
    · rw [Hdb.parse_real_cons, if_neg hsent]
  · intro hall
    rw [Hdb.parse_real_cons, if_pos (hiff4.mpr hall)]
  · rw [Hdb.parse_nullable_double_cons]
    by_cases hsent : Hdb.leToNat [d0, d1, d2, d3, d4, d5, d6, d7] = 2 ^ 64 - 1
    · rw [if_pos hsent]
      exact ⟨fun _ => hiff8.mp hsent, fun _ => rfl⟩
    · have hno : ¬(d0 = 255 ∧ d1 = 255 ∧ d2 = 255 ∧ d3 = 255 ∧ d4 = 255 ∧
          d5 = 255 ∧ d6 = 255 ∧ d7 = 255) :=
        fun hc => hsent (hiff8.mpr hc)
      rw [if_neg hsent]
      simp [hno]
  · intro hno
    have hsent : ¬ Hdb.leToNat [d0, d1, d2, d3, d4, d5, d6, d7] = 2 ^ 64 - 1 :=
      fun h => hno (hiff8.mp h)
    constructor
    · rw [Hdb.parse_nullable_double_cons, if_neg hsent]
    · rw [Hdb.parse_double_cons, if_neg hsent]
  · intro hall
    rw [Hdb.parse_double_cons, if_pos (hiff8.mpr hall)]

/-- Witness for C8: positive infinity (`0x7F800000`), negative infinity
(`0xFF800000`) and f64 negative zero (`0x8000000000000000`) decode to `Some`
of their bit pattern — none of them collides with the sentinel — while the
all-ones patterns give `None` (nullable) and an `Impl` error
(non-nullable). -/
theorem Hdb.real_double_null_sentinel_witness :
    Hdb.parse_nullable_real [0, 0, 128, 127] =
      Except.ok (some (Hdb.leToNat [0, 0, 128, 127]), []) ∧
    Hdb.parse_nullable_real [0, 0, 128, 255] =
      Except.ok (some (Hdb.leToNat [0, 0, 128, 255]), []) ∧
    Hdb.parse_nullable_double [0, 0, 0, 0, 0, 0, 0, 128] =
      Except.ok (some (Hdb.leToNat [0, 0, 0, 0, 0, 0, 0, 128]), []) ∧
    Hdb.parse_nullable_real [255, 255, 255, 255] = Except.ok (none, []) ∧
    Hdb.parse_nullable_double [255, 255, 255, 255, 255, 255, 255, 255] =
      Except.ok (none, []) ∧
    Hdb.parse_real [255, 255, 255, 255] =
      Except.error (.implErr "Unexpected NULL Value in parse_real()") := by
  have app1 := Hdb.real_double_null_sentinel 0 0 128 127 0 0 0 0 0 0 0 128
    (by decide) (by decide) (by decide) (by decide) (by decide) (by decide)
    (by decide) (by decide) (by decide) (by decide) (by decide) (by decide) []
  have app2 := Hdb.real_double_null_sentinel 0 0 128 255 255 255 255 255 255
    255 255 255
    (by decide) (by decide) (by decide) (by decide) (by decide) (by decide)
    (by decide) (by decide) (by decide) (by decide) (by decide) (by decide) []
  have app3 := Hdb.real_double_null_sentinel 255 255 255 255 255 255 255 255
    255 255 255 255
    (by decide) (by decide) (by decide) (by decide) (by decide) (by decide)
    (by decide) (by decide) (by decide) (by decide) (by decide) (by decide) []
  exact ⟨(app1.2.1 (by decide)).1,
    (app2.2.1 (by decide)).1,
    (app1.2.2.2.2.1 (by decide)).1,
    app3.1.mpr (by decide),
    app3.2.2.2.1.mpr (by decide),
    app3.2.2.1 (by decide)⟩

theorem Hdb.intToLe_length (w : Nat) (i : Int) : (Hdb.intToLe w i).length = w := by
  rw [Hdb.intToLe, Hdb.natToLe_length]

theorem Hdb.flatten_bytes_length (parts : List Hdb.WirePart)
    (hcons : ∀ p ∈ parts, p.bytes.length = p.sizeWithPadding) :
    ((parts.map Hdb.WirePart.bytes).flatten).length =
      (parts.map Hdb.WirePart.sizeWithPadding).sum := by
  rw [List.length_flatten, List.map_map]
  exact congrArg List.sum
    (List.map_congr_left fun p hp => hcons p hp)

theorem Hdb.drop_append_of_length {α : Type} (a b : List α) (n : Nat)
    (h : a.length = n) : (a ++ b).drop n = b :=
  h ▸ List.drop_left a b

theorem Hdb.take_append_of_length {α : Type} (a b : List α) (n : Nat)
    (h : a.length = n) : (a ++ b).take n = a :=
  h ▸ List.take_left a b

/-- C3: for every request whose parts report sizes consistent with the bytes
they emit, and whose segment fits the u32 size field, the total number of
bytes written by `Request::serialize_impl` equals `varpart_size + 32`, where
`varpart_size` is the single segment's size — the 24-byte segment header
plus the sum of all padded part sizes — and the 4 bytes at offset 12 of the
32-byte message header are exactly that `varpart_size`, little-endian. -/
theorem Hdb.request_serialize_size (sid seq rt : Int) (ac : Bool) (co : Nat)
    (parts : List Hdb.WirePart)
    (hcons : ∀ p ∈ parts, p.bytes.length = p.sizeWithPadding)
    (hfit : Hdb.seg_size parts < 2 ^ 32) :
    Hdb.varpart_size parts =
      24 + (parts.map Hdb.WirePart.sizeWithPadding).sum ∧
    (Hdb.serialize_impl sid seq rt ac co parts).length =
      Hdb.varpart_size parts + 32 ∧
    ((Hdb.serialize_impl sid seq rt ac co parts).drop 12).take 4 =
      Hdb.natToLe 4 (Hdb.varpart_size parts) := by
  have hvp : Hdb.varpart_size parts = Hdb.seg_size parts := by
    rw [Hdb.varpart_size, Nat.mod_eq_of_lt hfit]
  refine ⟨?_, ?_, ?_⟩
  · rw [hvp, Hdb.seg_size, Hdb.SEGMENT_HEADER_SIZE]
  · simp only [Hdb.serialize_impl, List.length_append, Hdb.intToLe_length,
      Hdb.natToLe_length, List.length_replicate, List.length_cons,
      List.length_nil, Hdb.flatten_bytes_length parts hcons]
    rw [hvp, Hdb.seg_size, Hdb.SEGMENT_HEADER_SIZE]
    omega
  · simp only [Hdb.serialize_impl, List.append_assoc]
    rw [← List.append_assoc (Hdb.intToLe 8 sid) (Hdb.intToLe 4 seq)]
    rw [Hdb.drop_append_of_length _ _ 12 (by
      simp [Hdb.intToLe_length])]
    rw [Hdb.take_append_of_length _ _ 4 (Hdb.natToLe_length _ _)]

/-- Witness for C3: a single part of padded size 8 emitting 8 bytes gives a
varpart size of 32, a total of 64 emitted bytes, and `32` in the header's
varpart-size field. -/
theorem Hdb.request_serialize_size_witness :
    Hdb.varpart_size [⟨8, [0, 0, 0, 0, 0, 0, 0, 0]⟩] = 32 ∧
    (Hdb.serialize_impl 1 2 3 true 0 [⟨8, [0, 0, 0, 0, 0, 0, 0, 0]⟩]).length =
      64 ∧
    ((Hdb.serialize_impl 1 2 3 true 0
        [⟨8, [0, 0, 0, 0, 0, 0, 0, 0]⟩]).drop 12).take 4 =
      Hdb.natToLe 4 32 := by
  have app := Hdb.request_serialize_size 1 2 3 true 0
    [⟨8, [0, 0, 0, 0, 0, 0, 0, 0]⟩] (by decide) (by decide)
  refine ⟨app.1.trans (by decide), ?_, app.2.2.trans (by decide)⟩
  rw [app.2.1]
  decide
